import Mathlib

/-!
Shallow embedding of the terminalia scroll/viewport logic
(`terminal.py`, `utilities.py`): the map grid, the 24×80 viewport,
the player character, and the scroll controller (`Terminal.move`,
`Terminal.at_edge`, `Character.centered`, `Terminal.is_valid_move`,
`Terminal.process_input`).  Coordinates are modelled as `Int` because
Python arithmetic on them is unbounded and negative screen coordinates
can arise.  Python list indexing (including its negative-index
wrap-around and its `IndexError`) is modelled by `pyIndex`, returning
`Option`.  Keys that only perform I/O or terminate the process
(`q`, `f`, `1`, `2`, `3`) leave the game state unchanged and are
modelled as the identity; an uncaught `IndexError` is modelled as
`none`.
-/

namespace Terminalia

/-- Viewport height in rows (`TERMINAL_ROWS = 24`). -/
def TERMINAL_ROWS : Int := 24

/-- Viewport width in columns (`TERMINAL_COLS = 80`). -/
def TERMINAL_COLS : Int := 80

/-- Cardinal directions (`NORTH = 0`, `EAST = 1`, `SOUTH = 2`, `WEST = 3`). -/
inductive Direction where
  | north
  | east
  | south
  | west
deriving DecidableEq, Repr

/-- Player character (`Character.__init__`): screen column `x`, screen
row `y`, initial facing `dir`, and the `direction` attribute that
`process_input` assigns on every movement key (absent until first
assigned, hence `Option`). -/
structure Character where
  x : Int
  y : Int
  dir : Direction
  direction : Option Direction
deriving DecidableEq, Repr

/-- Test whether the character is centered for the given direction
(`Character.centered`): row `TERMINAL_ROWS/2 - 1` for North/South,
column `TERMINAL_COLS/2 - 1` for East/West, both when no direction is
given. -/
def Character.centered (c : Character) (d : Option Direction) : Bool :=
  match d with
  | some Direction.north | some Direction.south =>
      decide (TERMINAL_ROWS / 2 - 1 = c.y)
  | some Direction.east | some Direction.west =>
      decide (TERMINAL_COLS / 2 - 1 = c.x)
  | none =>
      decide (TERMINAL_ROWS / 2 - 1 = c.y) && decide (TERMINAL_COLS / 2 - 1 = c.x)

/-- Local view (`View`): the 24×80 text buffer plus the viewport
offset, column `x` and row `y`, into the map. -/
structure View where
  text : List (List Char)
  x : Int
  y : Int
deriving DecidableEq, Repr

/-- World map (`Map.__init__` after `read_map`): character matrix with
derived bounds. -/
structure Map where
  text : List (List Char)
  height : Int
  width : Int
  min_row : Int
  min_col : Int
  max_row : Int
  max_col : Int
deriving DecidableEq, Repr

/-- Build a `Map` from its text the way `Map.__init__` does:
`height = len(text)`, `width = len(text[0])`, `min_row = min_col = 0`,
`max_row = min_row + height`, `max_col = min_col + width`. -/
def Map.ofText (text : List (List Char)) : Map :=
  let height : Int := text.length
  let width : Int := (text.headD []).length
  { text := text
    height := height
    width := width
    min_row := 0
    min_col := 0
    max_row := 0 + height
    max_col := 0 + width }

/-- The fixed blocklist of obstacle glyphs
(`self.nontraversable = ["@", "-", "_", "|"]`). -/
def nontraversable : List Char := ['@', '-', '_', '|']

/-- Game state held by `Terminal`: the map, the view and the player. -/
structure Terminal where
  map : Map
  view : View
  player : Character
deriving DecidableEq, Repr

/-- Python list indexing `l[i]`: a non-negative index within bounds
reads directly, an index in `[-len, 0)` wraps to `len + i`, anything
else raises `IndexError` (modelled as `none`). -/
def pyIndex {α : Type} (l : List α) (i : Int) : Option α :=
  if 0 ≤ i then l.get? i.toNat
  else if 0 ≤ i + l.length then l.get? (i + l.length).toNat
  else none

/-- Check the desired square for nontraversable characters
(`Terminal.is_valid_move`): `none` models an `IndexError` escaping
from `self.view.text[row][column]`. -/
def Terminal.is_valid_move (t : Terminal) (row column : Int) : Option Bool :=
  match pyIndex t.view.text row with
  | none => none
  | some r =>
      match pyIndex r column with
      | none => none
      | some ch => some (!(nontraversable.contains ch))

/-- Shift a (row, column) pair one cell toward a direction
(`Terminal.move_direction`). -/
def move_direction (row column : Int) (d : Direction) : Int × Int :=
  match d with
  | Direction.north => (row - 1, column)
  | Direction.east => (row, column + 1)
  | Direction.south => (row + 1, column)
  | Direction.west => (row, column - 1)

/-- Row delta of one step toward a direction. -/
def rowDelta : Direction → Int
  | Direction.north => -1
  | Direction.south => 1
  | Direction.east => 0
  | Direction.west => 0

/-- Column delta of one step toward a direction. -/
def colDelta : Direction → Int
  | Direction.east => 1
  | Direction.west => -1
  | Direction.north => 0
  | Direction.south => 0

/-- Test whether the viewport has reached the map edge in the given
direction (`Terminal.at_edge` with a direction argument). -/
def Terminal.at_edge (t : Terminal) (d : Direction) : Bool :=
  match d with
  | Direction.north => decide (t.view.y ≤ t.map.min_row)
  | Direction.east => decide (t.view.x + TERMINAL_COLS ≥ t.map.max_col)
  | Direction.south => decide (t.view.y + TERMINAL_ROWS ≥ t.map.max_row)
  | Direction.west => decide (t.view.x ≤ t.map.min_col)

/-- Reposition either the character or the view (`Terminal.move`):
edge rule first, then the off-center rule, else scroll the view.
Assumes the move was already validated. -/
def Terminal.move (t : Terminal) (d : Direction) : Terminal :=
  if t.at_edge d then
    let p := move_direction t.player.y t.player.x d
    { t with player := { t.player with y := p.1, x := p.2 } }
  else if !(t.player.centered (some d)) then
    let p := move_direction t.player.y t.player.x d
    { t with player := { t.player with y := p.1, x := p.2 } }
  else
    let p := move_direction t.view.y t.view.x d
    { t with view := { t.view with y := p.1, x := p.2 } }

/-- Assignment `self.player.direction = d` performed by
`process_input` on every movement key. -/
def Terminal.setDirection (t : Terminal) (d : Direction) : Terminal :=
  { t with player := { t.player with direction := some d } }

/-- The movement key bound to each direction in `process_input`
(`w`/`a`/`s`/`d`). -/
def keyOf : Direction → Char
  | Direction.north => 'w'
  | Direction.west => 'a'
  | Direction.south => 's'
  | Direction.east => 'd'

/-- Process one input key (`Terminal.process_input`), movement keys
only: assign `player.direction`, validate the candidate square, and
call `move` when it is traversable.  `none` models an uncaught
`IndexError` from the validity check; non-movement keys leave the
game state unchanged. -/
def Terminal.process_input (t : Terminal) (key : Char) : Option Terminal :=
  if key = 'w' then
    let t1 := t.setDirection Direction.north
    match t1.is_valid_move (t1.player.y - 1) t1.player.x with
    | some true => some (t1.move Direction.north)
    | some false => some t1
    | none => none
  else if key = 'a' then
    let t1 := t.setDirection Direction.west
    match t1.is_valid_move t1.player.y (t1.player.x - 1) with
    | some true => some (t1.move Direction.west)
    | some false => some t1
    | none => none
  else if key = 's' then
    let t1 := t.setDirection Direction.south
    match t1.is_valid_move (t1.player.y + 1) t1.player.x with
    | some true => some (t1.move Direction.south)
    | some false => some t1
    | none => none
  else if key = 'd' then
    let t1 := t.setDirection Direction.east
    match t1.is_valid_move t1.player.y (t1.player.x + 1) with
    | some true => some (t1.move Direction.east)
    | some false => some t1
    | none => none
  else some t

/-- A 24×80 buffer filled with the traversable glyph. -/
def allDots : List (List Char) := List.replicate 24 (List.replicate 80 '.')

/-- A fully traversable 24-row, 80-column map. -/
def map24 : Map := Map.ofText allDots

/-- Concrete state for the C6 scenario: fully traversable 24-row map,
viewport offset (0,0), player at screen row 11, column 39. -/
def t6 : Terminal :=
  { map := map24
    view := { text := allDots, x := 0, y := 0 }
    player := { x := 39, y := 11, dir := Direction.north, direction := none } }

/-- Theorem C4: the directional edge test compares each offset
against the matching grid bound with the viewport dimensions 24
and 80: North iff `offset_row <= min_row`, South iff
`offset_row + 24 >= max_row`, East iff `offset_col + 80 >= max_col`,
West iff `offset_col <= min_col`. -/
theorem at_edge_directional_spec (t : Terminal) :
    (t.at_edge Direction.north = true ↔ t.view.y ≤ t.map.min_row)
    ∧ (t.at_edge Direction.south = true ↔ t.view.y + 24 ≥ t.map.max_row)
    ∧ (t.at_edge Direction.east = true ↔ t.view.x + 80 ≥ t.map.max_col)
    ∧ (t.at_edge Direction.west = true ↔ t.view.x ≤ t.map.min_col) := by
  simp [Terminal.at_edge, TERMINAL_ROWS, TERMINAL_COLS]

/-- Theorem C5: `centered` for North/South holds iff the screen row
is 11, for East/West iff the screen column is 39, and with no
direction iff both hold, so rows 10 and 12 are not centered. -/
theorem centered_spec (c : Character) :
    (c.centered (some Direction.north) = true ↔ c.y = 11)
    ∧ (c.centered (some Direction.south) = true ↔ c.y = 11)
    ∧ (c.centered (some Direction.east) = true ↔ c.x = 39)
    ∧ (c.centered (some Direction.west) = true ↔ c.x = 39)
    ∧ (c.centered none = true ↔ (c.y = 11 ∧ c.x = 39)) := by
  simp [Character.centered, TERMINAL_ROWS, TERMINAL_COLS]
  omega

/-- One step of `move_direction` adds the direction's row and column
deltas. -/
theorem move_direction_delta (row column : Int) (d : Direction) :
    move_direction row column d = (row + rowDelta d, column + colDelta d) := by
  cases d <;> simp [move_direction, rowDelta, colDelta] <;> omega

/-- Theorem C1: whenever `at_edge d` holds, an accepted move toward
`d` shifts the player's screen position by exactly one cell toward
`d` and leaves the viewport offset unchanged, with no condition on
centering. -/
theorem edge_rule_moves_player (t : Terminal) (d : Direction)
    (h : t.at_edge d = true) :
    (t.move d).player.y = t.player.y + rowDelta d
    ∧ (t.move d).player.x = t.player.x + colDelta d
    ∧ (t.move d).view.y = t.view.y
    ∧ (t.move d).view.x = t.view.x := by
  simp [Terminal.move, h, move_direction_delta]

/-- Witness for C1: at the concrete state `t6` the viewport is at the
North edge and a North move shifts the player one row up, viewport
unchanged. -/
theorem edge_rule_moves_player_witness :
    t6.at_edge Direction.north = true
    ∧ ((t6.move Direction.north).player.y = t6.player.y + rowDelta Direction.north
       ∧ (t6.move Direction.north).player.x = t6.player.x + colDelta Direction.north
       ∧ (t6.move Direction.north).view.y = t6.view.y
       ∧ (t6.move Direction.north).view.x = t6.view.x) :=
  ⟨by decide, edge_rule_moves_player t6 Direction.north (by decide)⟩

/-- Theorem C2: every call to `move` mutates exactly one of the
player's screen position and the viewport offset: either the player
position changes and the view offset is untouched, or the view offset
changes and the player position is untouched. -/
theorem move_changes_exactly_one (t : Terminal) (d : Direction) :
    ((((t.move d).player.y ≠ t.player.y) ∨ ((t.move d).player.x ≠ t.player.x))
      ∧ (t.move d).view.y = t.view.y ∧ (t.move d).view.x = t.view.x)
    ∨ ((((t.move d).view.y ≠ t.view.y) ∨ ((t.move d).view.x ≠ t.view.x))
      ∧ (t.move d).player.y = t.player.y ∧ (t.move d).player.x = t.player.x) := by
  by_cases h1 : t.at_edge d = true
  · left
    simp [Terminal.move, h1, move_direction_delta]
    cases d <;> simp [rowDelta, colDelta]
  · by_cases h2 : t.player.centered (some d) = true
    · right
      simp [Terminal.move, h1, h2, move_direction_delta]
      cases d <;> simp [rowDelta, colDelta]
    · left
      simp [Terminal.move, h1, h2, move_direction_delta]
      cases d <;> simp [rowDelta, colDelta]

/-- Theorem C3: when the candidate square one step toward `d` is
non-traversable, processing the movement key of `d` returns the state
with only `player.direction` assigned: screen position and viewport
offset unchanged, and no exception (the result is `some`, not
`none`). -/
theorem blocked_move_only_updates_facing (t : Terminal) (d : Direction)
    (h : t.is_valid_move (t.player.y + rowDelta d) (t.player.x + colDelta d)
         = some false) :
    t.process_input (keyOf d) = some (t.setDirection d)
    ∧ (t.setDirection d).player.y = t.player.y
    ∧ (t.setDirection d).player.x = t.player.x
    ∧ (t.setDirection d).view = t.view
    ∧ (t.setDirection d).player.direction = some d := by
  cases d <;>
    simp_all [Terminal.process_input, keyOf, Terminal.setDirection,
      Terminal.is_valid_move, rowDelta, colDelta, sub_eq_add_neg]

/-- A row of 80 cells whose column 39 holds the obstacle glyph `@`. -/
def rowWithObstacle : List Char :=
  List.replicate 39 '.' ++ '@' :: List.replicate 40 '.'

/-- A 24×80 buffer with a single obstacle at row 10, column 39. -/
def bufWithObstacle : List (List Char) :=
  List.replicate 10 (List.replicate 80 '.')
    ++ rowWithObstacle :: List.replicate 13 (List.replicate 80 '.')

/-- Concrete state whose player faces an obstacle one step North. -/
def t3 : Terminal :=
  { map := map24
    view := { text := bufWithObstacle, x := 0, y := 0 }
    player := { x := 39, y := 11, dir := Direction.north, direction := none } }

/-- Witness for C3: at `t3` the square one step North is the obstacle
`@`, and the `w` key leaves position and viewport unchanged while
assigning `player.direction`. -/
theorem blocked_move_only_updates_facing_witness :
    t3.is_valid_move (t3.player.y + rowDelta Direction.north)
      (t3.player.x + colDelta Direction.north) = some false
    ∧ (t3.process_input (keyOf Direction.north)
         = some (t3.setDirection Direction.north)
       ∧ (t3.setDirection Direction.north).player.y = t3.player.y
       ∧ (t3.setDirection Direction.north).player.x = t3.player.x
       ∧ (t3.setDirection Direction.north).view = t3.view
       ∧ (t3.setDirection Direction.north).player.direction
           = some Direction.north) :=
  ⟨by decide, blocked_move_only_updates_facing t3 Direction.north (by decide)⟩

/-- Counterexample to C6: in the C6 scenario (fully traversable
24-row map, offset (0,0), player at screen (11,39)) a North move does
not leave the player at screen row 11 — the player moves to row
10. -/
theorem scenario_c6_player_does_not_stay :
    (t6.move Direction.north).player.y = 10
    ∧ ((t6.move Direction.north).player.y = 11 → False) := by
  decide

/-- Theorem C6 (amended): in the C6 scenario the edge rule fires
(`at_edge North` holds even though the player is centered for North),
the viewport offset stays (0,0), and the player moves from screen row
11 to screen row 10, column unchanged. -/
theorem scenario_c6_edge_rule_fires :
    t6.at_edge Direction.north = true
    ∧ t6.player.centered (some Direction.north) = true
    ∧ (t6.move Direction.north).view.y = 0
    ∧ (t6.move Direction.north).view.x = 0
    ∧ (t6.move Direction.north).player.y = 10
    ∧ (t6.move Direction.north).player.x = 39 := by
  decide

/-- A fully traversable 100-row, 80-column map. -/
def map100 : Map := Map.ofText (List.replicate 100 (List.replicate 80 '.'))

/-- Concrete state refuting the C7 round-trip: viewport strictly
inside the map (offset row 5 of 100), player at screen row 12 — not
centered for North or South. -/
def t7 : Terminal :=
  { map := map100
    view := { text := allDots, x := 0, y := 5 }
    player := { x := 39, y := 12, dir := Direction.north, direction := none } }

/-- Counterexample to C7: at `t7` the viewport is at neither the
North nor the South edge and the player is not centered for
North/South, yet moving North then South does not restore the
original state — after the North step the player sits on the centre
row, so the South step scrolls the viewport. -/
theorem roundtrip_counterexample :
    t7.at_edge Direction.north = false
    ∧ t7.at_edge Direction.south = false
    ∧ t7.player.centered (some Direction.north) = false
    ∧ t7.player.centered (some Direction.south) = false
    ∧ ((t7.move Direction.north).move Direction.south).view.y ≠ t7.view.y := by
  decide

/-- Theorem C7 (amended): when the viewport is at neither the North
nor the South edge and the player's screen row is neither 11 (centered
before the North step) nor 12 (centered after it), moving North then
South restores the player position and viewport offset exactly. -/
theorem roundtrip_north_south (t : Terminal)
    (hn : t.at_edge Direction.north = false)
    (hs : t.at_edge Direction.south = false)
    (h11 : t.player.y ≠ 11) (h12 : t.player.y ≠ 12) :
    ((t.move Direction.north).move Direction.south).player.y = t.player.y
    ∧ ((t.move Direction.north).move Direction.south).player.x = t.player.x
    ∧ ((t.move Direction.north).move Direction.south).view.y = t.view.y
    ∧ ((t.move Direction.north).move Direction.south).view.x = t.view.x := by
  have hc : t.player.centered (some Direction.north) = false := by
    simp [Character.centered, TERMINAL_ROWS]
    omega
  have e1 : t.move Direction.north =
      { t with player := { t.player with y := t.player.y - 1 } } := by
    simp [Terminal.move, hn, hc, move_direction]
  rw [e1]
  have hs1 : ({ t with player := { t.player with y := t.player.y - 1 } }
      : Terminal).at_edge Direction.south = false := by
    simpa [Terminal.at_edge] using hs
  have hc1 : ({ t with player := { t.player with y := t.player.y - 1 } }
      : Terminal).player.centered (some Direction.south) = false := by
    simp [Character.centered, TERMINAL_ROWS]
    omega
  simp [Terminal.move, hs1, hc1, move_direction]

/-- Concrete state satisfying the amended C7 hypotheses: player at
screen row 13. -/
def t7w : Terminal :=
  { map := map100
    view := { text := allDots, x := 0, y := 5 }
    player := { x := 39, y := 13, dir := Direction.north, direction := none } }

/-- Witness for the amended C7: the round-trip restores `t7w`
exactly. -/
theorem roundtrip_north_south_witness :
    (t7w.at_edge Direction.north = false
     ∧ t7w.at_edge Direction.south = false
     ∧ t7w.player.y ≠ 11 ∧ t7w.player.y ≠ 12)
    ∧ (((t7w.move Direction.north).move Direction.south).player.y = t7w.player.y
       ∧ ((t7w.move Direction.north).move Direction.south).player.x = t7w.player.x
       ∧ ((t7w.move Direction.north).move Direction.south).view.y = t7w.view.y
       ∧ ((t7w.move Direction.north).move Direction.south).view.x = t7w.view.x) :=
  ⟨by decide,
   roundtrip_north_south t7w (by decide) (by decide) (by decide) (by decide)⟩

/-- Concrete state for C8: player in range at screen (row 0, col 39),
viewport at the North edge, fully traversable buffer. -/
def t8 : Terminal :=
  { map := map24
    view := { text := allDots, x := 0, y := 0 }
    player := { x := 39, y := 0, dir := Direction.north, direction := none } }

/-- Theorem C8 (violation): from the in-range state `t8`, processing
the North movement key is accepted and leaves the player at screen
row −1, outside the documented range `[0, 24)`. -/
theorem screen_position_leaves_range :
    (0 ≤ t8.player.y ∧ t8.player.y < 24 ∧ 0 ≤ t8.player.x ∧ t8.player.x < 80)
    ∧ (t8.process_input 'w').map (fun u => u.player.y) = some (-1) := by
  decide

/-- Indexing a list with a cast natural number is plain `get?`. -/
theorem pyIndex_natCast {α : Type} (l : List α) (n : Nat) :
    pyIndex l (n : Int) = l.get? n := by
  simp [pyIndex]

/-- A successful `pyIndex` lookup returns a member of the list. -/
theorem pyIndex_mem {α : Type} {l : List α} {i : Int} {a : α}
    (h : pyIndex l i = some a) : a ∈ l := by
  unfold pyIndex at h
  split at h
  · exact List.get?_mem h
  · split at h
    · exact List.get?_mem h
    · cases h

/-- Theorem C9: the blocklist is exactly `@`, `-`, `_`, `|`; for a
screen cell holding character `ch`, `is_valid_move` answers `false`
iff `ch` is one of those four glyphs, and `#`, `=`, `/`, `\` are all
traversable. -/
theorem blocklist_spec (t : Terminal) (r : List Char) (row col : Nat) (ch : Char)
    (hr : t.view.text.get? row = some r) (hc : r.get? col = some ch) :
    nontraversable = ['@', '-', '_', '|']
    ∧ (t.is_valid_move (row : Int) (col : Int) = some false
        ↔ (ch = '@' ∨ ch = '-' ∨ ch = '_' ∨ ch = '|'))
    ∧ ((ch = '#' ∨ ch = '=' ∨ ch = '/' ∨ ch = '\\')
        → t.is_valid_move (row : Int) (col : Int) = some true) := by
  have hv : t.is_valid_move (row : Int) (col : Int)
      = some (!(nontraversable.contains ch)) := by
    simp only [Terminal.is_valid_move, pyIndex_natCast, hr, hc]
  refine ⟨rfl, ?_, ?_⟩
  · rw [hv]
    simp [nontraversable]
    tauto
  · intro h
    rw [hv]
    rcases h with h | h | h | h <;> subst h <;> decide

/-- Witness for C9: at `t3` the cell at screen row 10, column 39
holds `@`, and `is_valid_move` answers `false` there. -/
theorem blocklist_spec_witness :
    (t3.view.text.get? 10 = some rowWithObstacle
     ∧ rowWithObstacle.get? 39 = some '@')
    ∧ (nontraversable = ['@', '-', '_', '|']
       ∧ (t3.is_valid_move ((10 : Nat) : Int) ((39 : Nat) : Int) = some false
           ↔ ('@' = '@' ∨ '@' = '-' ∨ '@' = '_' ∨ '@' = '|'))
       ∧ (('@' = '#' ∨ '@' = '=' ∨ '@' = '/' ∨ '@' = '\\')
           → t3.is_valid_move ((10 : Nat) : Int) ((39 : Nat) : Int) = some true)) :=
  ⟨⟨by decide, by decide⟩,
   blocklist_spec t3 rowWithObstacle 10 39 '@' (by decide) (by decide)⟩

/-- Concrete state for C10: player in range at screen (row 0, col 5),
viewport at the North edge, fully traversable buffer. -/
def t10 : Terminal :=
  { map := map24
    view := { text := allDots, x := 0, y := 0 }
    player := { x := 5, y := 0, dir := Direction.north, direction := none } }

/-- Theorem C10: on a full 24×80 buffer, `is_valid_move` at row −1
reads the buffer's last row (row 23), and symmetrically column −1
reads column 79; consequently an accepted North move from screen row
0 at the North edge sets the player's screen row to −1, as the
concrete state `t10` shows. -/
theorem negative_index_wraps (t : Terminal) (row col : Int)
    (h24 : t.view.text.length = 24)
    (h80 : ∀ r ∈ t.view.text, r.length = 80) :
    t.is_valid_move (-1) col = t.is_valid_move 23 col
    ∧ t.is_valid_move row (-1) = t.is_valid_move row 79
    ∧ (t10.process_input 'w').map (fun u => u.player.y) = some (-1) := by
  refine ⟨?_, ?_, by decide⟩
  · have h1 : pyIndex t.view.text (-1) = pyIndex t.view.text 23 := by
      simp [pyIndex, h24]
    simp [Terminal.is_valid_move, h1]
  · unfold Terminal.is_valid_move
    cases e : pyIndex t.view.text row with
    | none => rfl
    | some r =>
        have hl : r.length = 80 := h80 r (pyIndex_mem e)
        have h2 : pyIndex r (-1) = pyIndex r 79 := by
          simp [pyIndex, hl]
        simp [h2]

/-- Witness for C10: the wrap-around equalities hold at the concrete
state `t10` for row 3 and column 5. -/
theorem negative_index_wraps_witness :
    (t10.view.text.length = 24 ∧ ∀ r ∈ t10.view.text, r.length = 80)
    ∧ (t10.is_valid_move (-1) 5 = t10.is_valid_move 23 5
       ∧ t10.is_valid_move 3 (-1) = t10.is_valid_move 3 79
       ∧ (t10.process_input 'w').map (fun u => u.player.y) = some (-1)) :=
  ⟨⟨by decide, by decide⟩, negative_index_wraps t10 3 5 (by decide) (by decide)⟩

end Terminalia
